import Mathlib

/-!
Verification development for the stapply repository (Go): a controller /
agent automation fabric over a NATS-style message bus.

The definitions below are a shallow embedding of the repository's code:

* `Stapply.Sha` — SHA-256 (used by `computeHash` in
  `internal/actions/file.go` and by `DeriveKey` in the `security` package).
* `Stapply.Aes` / `Stapply.Gcm` — AES-256 and AES-GCM as used by
  `security.Encrypt` / `security.Decrypt`.
* `Stapply.Netutil` — the private-network gate of
  `internal/netutil` (`IsPrivateNetwork`, `ValidateNATSURL`).
* `Stapply.Protocol` — `internal/protocol/response.go`.
* `Stapply.Actions` — the agent-side action executors
  (`cmd.go`, `file.go`, `template.go`, `artifact.go`) over an explicit
  file-system state; external effects (the shell, template rendering)
  are oracle inputs.
* `Stapply.Ctl` — the controller's per-step tally loop and the
  semaphore-bounded host scheduler of `cmd/stapply-ctl/main.go`.

Machine integers are `Nat` with explicit `% 2^w` where overflow matters;
fallible operations return `Option`.
-/

namespace Stapply

/-! ## Byte-level helpers -/

/-- Truncate to 32 bits. -/
def u32 (x : Nat) : Nat := x % 4294967296

/-- 32-bit right rotation. -/
def rotr32 (n x : Nat) : Nat := u32 ((x >>> n) ||| (x <<< (32 - n)))

/-- 32-bit bitwise complement. -/
def not32 (x : Nat) : Nat := x ^^^ 4294967295

/-- Big-endian 4-byte encoding of a 32-bit value. -/
def be32 (x : Nat) : List Nat :=
  [(x >>> 24) % 256, (x >>> 16) % 256, (x >>> 8) % 256, x % 256]

/-- Big-endian 8-byte encoding of a 64-bit value. -/
def be64 (x : Nat) : List Nat :=
  [(x >>> 56) % 256, (x >>> 48) % 256, (x >>> 40) % 256, (x >>> 32) % 256,
   (x >>> 24) % 256, (x >>> 16) % 256, (x >>> 8) % 256, x % 256]

/-- Big-endian interpretation of a byte list. -/
def beBytesToNat (l : List Nat) : Nat :=
  l.foldl (fun acc b => acc * 256 + b % 256) 0

/-- Pack four bytes into a big-endian 32-bit word. -/
def word4 (b0 b1 b2 b3 : Nat) : Nat :=
  (b0 % 256) * 16777216 + (b1 % 256) * 65536 + (b2 % 256) * 256 + b3 % 256

/-- Split a byte list into big-endian 32-bit words (groups of 4). -/
def toWords : List Nat → List Nat
  | b0 :: b1 :: b2 :: b3 :: rest => word4 b0 b1 b2 b3 :: toWords rest
  | _ => []

/-- The UTF-32 code points of a string, as the byte content the Go code
hashes. (The repository only ever hashes ASCII configuration payloads.) -/
def strBytes (s : String) : List Nat := s.data.map Char.toNat

/-! ## SHA-256 (FIPS 180-4), backing `computeHash` and `DeriveKey` -/

/-- SHA-256 round constants (decimal rendering of FIPS 180-4 §4.2.2). -/
def shaK : List Nat :=
  [1116352408, 1899447441, 3049323471, 3921009573, 961987163,
   1508970993, 2453635748, 2870763221, 3624381080, 310598401,
   607225278, 1426881987, 1925078388, 2162078206, 2614888103,
   3248222580, 3835390401, 4022224774, 264347078, 604807628,
   770255983, 1249150122, 1555081692, 1996064986, 2554220882,
   2821834349, 2952996808, 3210313671, 3336571891, 3584528711,
   113926993, 338241895, 666307205, 773529912, 1294757372,
   1396182291, 1695183700, 1986661051, 2177026350, 2456956037,
   2730485921, 2820302411, 3259730800, 3345764771, 3516065817,
   3600352804, 4094571909, 275423344, 430227734, 506948616,
   659060556, 883997877, 958139571, 1322822218, 1537002063,
   1747873779, 1955562222, 2024104815, 2227730452, 2361852424,
   2428436474, 2756734187, 3204031479, 3329325298]

/-- SHA-256 initial hash state (decimal rendering of FIPS 180-4 §5.3.3). -/
def shaH0 : List Nat :=
  [1779033703, 3144134277, 1013904242, 2773480762,
   1359893119, 2600822924, 528734635, 1541459225]

/-- Merkle–Damgård padding: `0x80`, zeros, 64-bit big-endian bit length. -/
def shaPad (msg : List Nat) : List Nat :=
  msg ++ [0x80] ++ List.replicate ((55 + 64 - msg.length % 64) % 64) 0
      ++ be64 (msg.length * 8)

/-- Extend the 16 message-schedule words to 64. -/
def shaExtend (ws : List Nat) : Nat → List Nat
  | 0 => ws
  | k + 1 =>
    let i := ws.length
    let s0 :=
      let w := ws.getD (i - 15) 0
      rotr32 7 w ^^^ rotr32 18 w ^^^ (w >>> 3)
    let s1 :=
      let w := ws.getD (i - 2) 0
      rotr32 17 w ^^^ rotr32 19 w ^^^ (w >>> 10)
    shaExtend (ws ++ [u32 (ws.getD (i - 16) 0 + s0 + ws.getD (i - 7) 0 + s1)]) k

/-- One SHA-256 compression round; the state is the eight working words. -/
def shaRound (st : List Nat) (kw : Nat × Nat) : List Nat :=
  let a := st.getD 0 0
  let b := st.getD 1 0
  let c := st.getD 2 0
  let d := st.getD 3 0
  let e := st.getD 4 0
  let f := st.getD 5 0
  let g := st.getD 6 0
  let h := st.getD 7 0
  let bigS1 := rotr32 6 e ^^^ rotr32 11 e ^^^ rotr32 25 e
  let ch := (e &&& f) ^^^ (not32 e &&& g)
  let t1 := u32 (h + bigS1 + ch + kw.1 + kw.2)
  let bigS0 := rotr32 2 a ^^^ rotr32 13 a ^^^ rotr32 22 a
  let maj := (a &&& b) ^^^ (a &&& c) ^^^ (b &&& c)
  let t2 := u32 (bigS0 + maj)
  [u32 (t1 + t2), a, b, c, u32 (d + t1), e, f, g]

/-- Compress one 64-byte block into the running hash state. -/
def shaCompress (h : List Nat) (block : List Nat) : List Nat :=
  let w := shaExtend (toWords block) 48
  let st := (shaK.zip w).foldl shaRound h
  List.zipWith (fun x y => u32 (x + y)) h st

/-- Fuel-driven chunking: take `stride`-byte slices until the list is
exhausted (the fuel `l.length` always suffices for a positive stride). -/
def chunksGo (stride : Nat) : Nat → List Nat → List (List Nat)
  | 0, _ => []
  | _, [] => []
  | fuel + 1, l => l.take stride :: chunksGo stride fuel (l.drop stride)

/-- Split into 64-byte blocks. -/
def chunks64 (l : List Nat) : List (List Nat) := chunksGo 64 l.length l

/-- SHA-256 of a byte list, as 32 bytes. -/
def sha256 (msg : List Nat) : List Nat :=
  ((chunks64 (shaPad msg)).foldl shaCompress shaH0).foldr
    (fun w acc => be32 w ++ acc) []

/-- Lower-case hex digit. -/
def hexDigit (n : Nat) : Char :=
  if n < 10 then Char.ofNat (48 + n) else Char.ofNat (87 + n)

/-- Lower-case hex encoding of a byte list (Go `hex.EncodeToString`). -/
def hexEncode (l : List Nat) : String :=
  String.mk (l.foldr (fun b acc => hexDigit (b % 256 / 16) :: hexDigit (b % 16) :: acc) [])

/-- `computeHash` from `internal/actions/file.go`: hex of SHA-256. -/
def computeHash (data : List Nat) : String := hexEncode (sha256 data)

/-! ## AES-256 (FIPS 197), the block cipher behind `crypto/aes` -/

/-- Multiplication by `x` in GF(2^8) with the AES reduction polynomial. -/
def xtime (b : Nat) : Nat :=
  if b * 2 ≥ 256 then (b * 2) ^^^ 0x11b else b * 2

/-- Russian-peasant loop for GF(2^8) multiplication (8 bit steps). -/
def gfMulGo (a b acc : Nat) : Nat → Nat
  | 0 => acc
  | k + 1 => gfMulGo (xtime a) (b >>> 1) (if b % 2 = 1 then acc ^^^ a else acc) k

/-- GF(2^8) multiplication. -/
def gfMul (a b : Nat) : Nat := gfMulGo a b 0 8

/-- GF(2^8) exponentiation. -/
def gfPow (a : Nat) : Nat → Nat
  | 0 => 1
  | n + 1 => gfMul a (gfPow a n)

/-- GF(2^8) multiplicative inverse (0 maps to 0). -/
def gfInv (a : Nat) : Nat := if a = 0 then 0 else gfPow a 254

/-- Left rotation within a byte. -/
def rotl8 (x n : Nat) : Nat := ((x <<< n) ||| (x >>> (8 - n))) % 256

/-- The AES S-box: affine transform of the GF(2^8) inverse. -/
def sbox (b : Nat) : Nat :=
  let x := gfInv (b % 256)
  x ^^^ rotl8 x 1 ^^^ rotl8 x 2 ^^^ rotl8 x 3 ^^^ rotl8 x 4 ^^^ 0x63

/-- Apply the S-box to each byte of a big-endian 32-bit word. -/
def subWord (w : Nat) : Nat :=
  word4 (sbox ((w >>> 24) % 256)) (sbox ((w >>> 16) % 256))
        (sbox ((w >>> 8) % 256)) (sbox (w % 256))

/-- Rotate a 32-bit word left by one byte. -/
def rotWord (w : Nat) : Nat := u32 ((w <<< 8) ||| (w >>> 24))

/-- AES round constant `Rcon[i]` as a big-endian word. -/
def rcon (i : Nat) : Nat := u32 (gfPow 2 (i - 1) <<< 24)

/-- AES-256 key-schedule extension loop (adds one word per step). -/
def ksGo (ws : List Nat) : Nat → List Nat
  | 0 => ws
  | k + 1 =>
    let i := ws.length
    let prev := ws.getD (i - 1) 0
    let t :=
      if i % 8 = 0 then subWord (rotWord prev) ^^^ rcon (i / 8)
      else if i % 8 = 4 then subWord prev
      else prev
    ksGo (ws ++ [ws.getD (i - 8) 0 ^^^ t]) k

/-- AES-256 key schedule: 60 words from a 32-byte key. -/
def keySchedule (key : List Nat) : List Nat := ksGo (toWords key) 52

/-- Bytes of a big-endian 32-bit word. -/
def wbytes (w : Nat) : List Nat :=
  [(w >>> 24) % 256, (w >>> 16) % 256, (w >>> 8) % 256, w % 256]

/-- The 16-byte round key for round `r`. -/
def roundKey (ws : List Nat) (r : Nat) : List Nat :=
  wbytes (ws.getD (4 * r) 0) ++ wbytes (ws.getD (4 * r + 1) 0) ++
  wbytes (ws.getD (4 * r + 2) 0) ++ wbytes (ws.getD (4 * r + 3) 0)

/-- Indexed access into a 16-byte state. -/
def at16 (s : List Nat) (i : Nat) : Nat := s.getD i 0

/-- SubBytes on a 16-byte column-major state. -/
def subBytes16 (s : List Nat) : List Nat :=
  [sbox (at16 s 0), sbox (at16 s 1), sbox (at16 s 2), sbox (at16 s 3),
   sbox (at16 s 4), sbox (at16 s 5), sbox (at16 s 6), sbox (at16 s 7),
   sbox (at16 s 8), sbox (at16 s 9), sbox (at16 s 10), sbox (at16 s 11),
   sbox (at16 s 12), sbox (at16 s 13), sbox (at16 s 14), sbox (at16 s 15)]

/-- ShiftRows on a 16-byte column-major state. -/
def shiftRows16 (s : List Nat) : List Nat :=
  [at16 s 0, at16 s 5, at16 s 10, at16 s 15,
   at16 s 4, at16 s 9, at16 s 14, at16 s 3,
   at16 s 8, at16 s 13, at16 s 2, at16 s 7,
   at16 s 12, at16 s 1, at16 s 6, at16 s 11]

/-- MixColumns on one column. -/
def mixCol (a b c d : Nat) : List Nat :=
  [gfMul 2 a ^^^ gfMul 3 b ^^^ c ^^^ d,
   a ^^^ gfMul 2 b ^^^ gfMul 3 c ^^^ d,
   a ^^^ b ^^^ gfMul 2 c ^^^ gfMul 3 d,
   gfMul 3 a ^^^ b ^^^ c ^^^ gfMul 2 d]

/-- MixColumns on a 16-byte column-major state. -/
def mixColumns16 (s : List Nat) : List Nat :=
  mixCol (at16 s 0) (at16 s 1) (at16 s 2) (at16 s 3) ++
  mixCol (at16 s 4) (at16 s 5) (at16 s 6) (at16 s 7) ++
  mixCol (at16 s 8) (at16 s 9) (at16 s 10) (at16 s 11) ++
  mixCol (at16 s 12) (at16 s 13) (at16 s 14) (at16 s 15)

/-- AddRoundKey: byte-wise xor of two 16-byte states. -/
def xor16 (s k : List Nat) : List Nat :=
  [at16 s 0 ^^^ at16 k 0, at16 s 1 ^^^ at16 k 1,
   at16 s 2 ^^^ at16 k 2, at16 s 3 ^^^ at16 k 3,
   at16 s 4 ^^^ at16 k 4, at16 s 5 ^^^ at16 k 5,
   at16 s 6 ^^^ at16 k 6, at16 s 7 ^^^ at16 k 7,
   at16 s 8 ^^^ at16 k 8, at16 s 9 ^^^ at16 k 9,
   at16 s 10 ^^^ at16 k 10, at16 s 11 ^^^ at16 k 11,
   at16 s 12 ^^^ at16 k 12, at16 s 13 ^^^ at16 k 13,
   at16 s 14 ^^^ at16 k 14, at16 s 15 ^^^ at16 k 15]

/-- A middle AES round. -/
def aesRound (rk st : List Nat) : List Nat :=
  xor16 (mixColumns16 (shiftRows16 (subBytes16 st))) rk

/-- The final AES round (no MixColumns). -/
def aesFinalRound (rk st : List Nat) : List Nat :=
  xor16 (shiftRows16 (subBytes16 st)) rk

/-- AES-256 encryption of one 16-byte block. -/
def aesBlock (key block : List Nat) : List Nat :=
  let ws := keySchedule key
  let st0 := xor16 block (roundKey ws 0)
  let stMid := (List.range 13).foldl (fun st r => aesRound (roundKey ws (r + 1)) st) st0
  aesFinalRound (roundKey ws 14) stMid

/-! ## AES-GCM (NIST SP 800-38D), the mode behind `cipher.NewGCM` -/

/-- Split into 16-byte blocks (the last may be short). -/
def chunks16 (l : List Nat) : List (List Nat) := chunksGo 16 l.length l

/-- Zero-pad to a multiple of 16 bytes. -/
def pad16 (l : List Nat) : List Nat :=
  l ++ List.replicate ((16 - l.length % 16) % 16) 0

/-- 16-byte big-endian encoding of a 128-bit value. -/
def natToBe16 (x : Nat) : List Nat :=
  [(x >>> 120) % 256, (x >>> 112) % 256, (x >>> 104) % 256, (x >>> 96) % 256,
   (x >>> 88) % 256, (x >>> 80) % 256, (x >>> 72) % 256, (x >>> 64) % 256,
   (x >>> 56) % 256, (x >>> 48) % 256, (x >>> 40) % 256, (x >>> 32) % 256,
   (x >>> 24) % 256, (x >>> 16) % 256, (x >>> 8) % 256, x % 256]

/-- The GHASH reduction constant `R`. -/
def gmulR : Nat := 0xe1000000000000000000000000000000

/-- One-bit-per-step GF(2^128) multiplication loop (SP 800-38D alg. 1). -/
def gmulGo (x z v : Nat) : Nat → Nat
  | 0 => z
  | k + 1 =>
    let z' := if (x >>> 127) % 2 = 1 then z ^^^ v else z
    let v' := if v % 2 = 0 then v >>> 1 else (v >>> 1) ^^^ gmulR
    gmulGo ((x <<< 1) % 340282366920938463463374607431768211456) z' v' k

/-- GF(2^128) multiplication in the GCM bit order. -/
def gmul (x y : Nat) : Nat := gmulGo x 0 y 128

/-- GHASH of a ciphertext with empty additional data. -/
def ghash (h : Nat) (c : List Nat) : Nat :=
  let y := (chunks16 (pad16 c)).foldl (fun y b => gmul (y ^^^ beBytesToNat b) h) 0
  gmul (y ^^^ (c.length * 8)) h

/-- The pre-counter block `J0` for a 12-byte nonce. -/
def j0 (nonce : List Nat) : List Nat := nonce ++ [0, 0, 0, 1]

/-- Increment the low 32 bits of a 16-byte counter block. -/
def inc32 (b : List Nat) : List Nat :=
  b.take 12 ++ be32 (beBytesToNat (b.drop 12) + 1)

/-- `n` consecutive CTR keystream blocks. -/
def ctrBlocks (key counter : List Nat) : Nat → List Nat
  | 0 => []
  | k + 1 => aesBlock key counter ++ ctrBlocks key (inc32 counter) k

/-- The CTR keystream of exactly `n` bytes (counter starts at `inc32 J0`). -/
def keystream (key nonce : List Nat) (n : Nat) : List Nat :=
  List.take n (ctrBlocks key (inc32 (j0 nonce)) ((n + 15) / 16))

/-- Byte-wise xor (length of the shorter list). -/
def xorBytes (a b : List Nat) : List Nat := List.zipWith (fun x y => x ^^^ y) a b

/-- GCM CTR encryption/decryption of a payload. -/
def gcmCtr (key nonce data : List Nat) : List Nat :=
  xorBytes data (keystream key nonce data.length)

/-- The 16-byte GCM authentication tag of a ciphertext. -/
def gcmTag (key nonce c : List Nat) : List Nat :=
  let h := beBytesToNat (aesBlock key (List.replicate 16 0))
  xor16 (aesBlock key (j0 nonce)) (natToBe16 (ghash h c))

/-- `gcm.Seal`: ciphertext followed by the tag. -/
def gcmSeal (key nonce data : List Nat) : List Nat :=
  gcmCtr key nonce data ++ gcmTag key nonce (gcmCtr key nonce data)

/-- `gcm.Open`: check the tag, then decrypt; `none` on failure. -/
def gcmOpen (key nonce data : List Nat) : Option (List Nat) :=
  if data.length < 16 then none
  else
    let c := data.take (data.length - 16)
    let t := data.drop (data.length - 16)
    if gcmTag key nonce c = t then some (gcmCtr key nonce c) else none

/-! ## The `security` package (`DeriveKey` / `Encrypt` / `Decrypt`)

`Encrypt` draws its 12-byte nonce from the system RNG; the randomness is
modelled as an explicit `nonce` argument. -/

/-- `security.DeriveKey`: 32-byte key from a string secret via SHA-256. -/
def DeriveKey (secret : String) : List Nat := sha256 (strBytes secret)

/-- `security.Encrypt`: AES-GCM with the nonce prefixed to
ciphertext-plus-tag; an empty secret is an error (`none`). -/
def Encrypt (data : List Nat) (secret : String) (nonce : List Nat) :
    Option (List Nat) :=
  if secret = "" then none
  else some (nonce ++ gcmSeal (DeriveKey secret) nonce data)

/-- `security.Decrypt`: split the 12-byte nonce, then `gcm.Open`;
an empty secret or a short ciphertext is an error (`none`). -/
def Decrypt (data : List Nat) (secret : String) : Option (List Nat) :=
  if secret = "" then none
  else if data.length < 12 then none
  else gcmOpen (DeriveKey secret) (data.take 12) (data.drop 12)

/-! ## `internal/netutil`: the private-network gate

IPv4 addresses are modelled as `Nat` values below `2^32`. DNS resolution
(`net.LookupIP`) is external I/O, so `ValidateNATSURL` is embedded from the
point after resolution: it takes the list of resolved addresses. -/

/-- Pack four octets into an IPv4 address. -/
def ipv4 (a b c d : Nat) : Nat :=
  (a % 256) * 16777216 + (b % 256) * 65536 + (c % 256) * 256 + d % 256

/-- The netmask of a `/p` CIDR prefix. -/
def maskBits (p : Nat) : Nat := 4294967296 - 2 ^ (32 - p)

/-- `net.IPNet.Contains`: mask the address and compare with the base. -/
def cidrContains (base p ip : Nat) : Bool :=
  (ip &&& maskBits p) = (base &&& maskBits p)

/-- `netutil.IsPrivateNetwork`: loopback, the RFC1918 ranges, or CGNAT. -/
def IsPrivateNetwork (ip : Nat) : Bool :=
  cidrContains (ipv4 127 0 0 0) 8 ip ||
  cidrContains (ipv4 10 0 0 0) 8 ip ||
  cidrContains (ipv4 172 16 0 0) 12 ip ||
  cidrContains (ipv4 192 168 0 0) 16 ip ||
  cidrContains (ipv4 100 64 0 0) 10 ip

/-- `netutil.ValidateNATSURL` after hostname resolution: reject an empty
resolution; reject when no resolved address is private and public
addresses are not allowed. `true` means the URL is accepted. -/
def ValidateNATSURLResolved (ips : List Nat) (allowPublic : Bool) : Bool :=
  if ips.isEmpty then false
  else if !ips.any IsPrivateNetwork && !allowPublic then false
  else true

/-! ## `internal/protocol/response.go` -/

namespace Protocol

/-- Reply status taxonomy. -/
inductive Status where
  | ok
  | failed
  | timeout
  | error
deriving DecidableEq, Repr

/-- The run reply record. -/
structure RunResponse where
  requestId : String
  status : Status
  changed : Bool
  exitCode : Int
  stdout : String
  stderr : String
  errMsg : String
  durationMs : Int
deriving DecidableEq, Repr

/-- `protocol.NewRunResponse`: status `failed` iff the exit code is
non-zero, `ok` otherwise; `changed` is passed through. -/
def NewRunResponse (requestId : String) (changed : Bool) (exitCode : Int)
    (stdout stderr : String) (durationMs : Int) : RunResponse :=
  { requestId := requestId
    status := if exitCode ≠ 0 then .failed else .ok
    changed := changed
    exitCode := exitCode
    stdout := stdout
    stderr := stderr
    errMsg := ""
    durationMs := durationMs }

/-- `protocol.NewErrorResponse`: status `error`, `changed=false`. -/
def NewErrorResponse (requestId : String) (err : String)
    (durationMs : Int) : RunResponse :=
  { requestId := requestId
    status := .error
    changed := false
    exitCode := 0
    stdout := ""
    stderr := ""
    errMsg := err
    durationMs := durationMs }

end Protocol

/-! ## On-host state

Files carry content bytes, a permission mode and an owner string; the
directory set backs `os.Stat` checks and `os.MkdirAll`. -/

/-- One on-host file. -/
structure FileRec where
  content : List Nat
  mode : Nat
  owner : String
deriving DecidableEq, Repr

/-- The observable on-host state an action can touch. -/
structure FsState where
  files : String → Option FileRec
  dirs : String → Bool

/-- Overwrite or create one file. -/
def FsState.setFile (fs : FsState) (p : String) (f : FileRec) : FsState :=
  { fs with files := fun q => if q = p then some f else fs.files q }

/-- `os.MkdirAll` on the model: mark the directory present. -/
def FsState.addDir (fs : FsState) (d : String) : FsState :=
  { fs with dirs := fun q => if q = d then true else fs.dirs q }

/-- `os.WriteFile`: truncate an existing file keeping its mode, or create
with mode `0644`. -/
def FsState.writeFile (fs : FsState) (p : String) (content : List Nat) : FsState :=
  match fs.files p with
  | some f => fs.setFile p { f with content := content }
  | none => fs.setFile p { content := content, mode := 0o644, owner := "" }

/-- `os.Chmod` on an existing file (no-op on a missing one). -/
def FsState.chmod (fs : FsState) (p : String) (m : Nat) : FsState :=
  match fs.files p with
  | some f => fs.setFile p { f with mode := m }
  | none => fs

/-- `chown user:group` on an existing file (no-op on a missing one). -/
def FsState.chown (fs : FsState) (p : String) (o : String) : FsState :=
  match fs.files p with
  | some f => fs.setFile p { f with owner := o }
  | none => fs

/-- The empty host state. -/
def FsState.empty : FsState := { files := fun _ => none, dirs := fun _ => false }

/-- `filepath.Dir` (simplified): the part before the last slash,
`"."` when there is no slash, `"/"` for a file in the root. -/
def dirname (p : String) : String :=
  let cs := p.data
  let r := cs.reverse.findIdx (fun c => c == '/')
  if r = cs.length then "."
  else if cs.length - r - 1 = 0 then "/"
  else String.mk (cs.take (cs.length - r - 1))

/-! ## Argument parsing helpers used by the actions -/

/-- The flat string-to-string argument map of a run request. -/
def Args : Type := String → Option String

/-- Go map indexing `args[k]`: the zero value for a missing key. -/
def argD (args : Args) (k : String) : String := (args k).getD ""

/-- `strconv.ParseUint(s, 8, 32)`: octal digits only, non-empty,
below `2^32`. -/
def parseOctal (s : String) : Option Nat :=
  if s.data ≠ [] ∧ s.data.all (fun c => '0' ≤ c ∧ c ≤ '7') then
    let v := s.data.foldl (fun acc c => acc * 8 + (c.toNat - 48)) 0
    if v < 4294967296 then some v else none
  else none

/-- Decimal digit run for `strconv.Atoi`. -/
def digitsVal (ds : List Char) : Option Nat :=
  if ds ≠ [] ∧ ds.all (fun c => c.isDigit) then
    some (ds.foldl (fun acc c => acc * 10 + (c.toNat - 48)) 0)
  else none

/-- `strconv.Atoi`: optional sign, then decimal digits. -/
def atoi (s : String) : Option Int :=
  match s.data with
  | '-' :: ds => (digitsVal ds).map (fun n => -(n : Int))
  | '+' :: ds => (digitsVal ds).map (fun n => (n : Int))
  | ds => (digitsVal ds).map (fun n => (n : Int))

/-- Value of one base64 alphabet character (standard alphabet). -/
def b64Val (c : Char) : Option Nat :=
  if 'A' ≤ c ∧ c ≤ 'Z' then some (c.toNat - 65)
  else if 'a' ≤ c ∧ c ≤ 'z' then some (c.toNat - 71)
  else if '0' ≤ c ∧ c ≤ '9' then some (c.toNat + 4)
  else if c = '+' then some 62
  else if c = '/' then some 63
  else none

/-- `base64.StdEncoding.DecodeString` on four-character groups; `=`
padding is allowed only in the final group. -/
def b64Groups : List Char → Option (List Nat)
  | [] => some []
  | a :: b :: c :: d :: rest =>
    match b64Val a, b64Val b with
    | some x, some y =>
      if c = '=' then
        if d = '=' ∧ rest = [] then some [x * 4 + y / 16] else none
      else
        match b64Val c with
        | some z =>
          if d = '=' then
            if rest = [] then some [x * 4 + y / 16, y % 16 * 16 + z / 4] else none
          else
            match b64Val d with
            | some w =>
              (b64Groups rest).map
                (fun tl => (x * 4 + y / 16) :: (y % 16 * 16 + z / 4) :: (z % 4 * 64 + w) :: tl)
            | none => none
        | none => none
    | _, _ => none
  | _ => none

/-- `base64.StdEncoding.DecodeString`. -/
def b64Decode (s : String) : Option (List Nat) := b64Groups s.data

/-! ## `internal/actions/cmd.go`

The shell is external: its outcome (a start failure, or an exit code with
captured output) is an oracle input, as is the `exec.LookPath` probe used
by dry runs. Shell side effects on the host are outside the model, so
`cmdExecute` returns only the reply. -/

/-- Outcome of `exec.Command("sh", "-c", command).Run()`. -/
structure ShellResult where
  startErr : Bool
  exitCode : Int
  stdout : String
  stderr : String
deriving DecidableEq, Repr

/-- `strings.Fields`. -/
def strFields (s : String) : List String :=
  (s.splitOn " ").filter (fun t => t ≠ "")

/-- `CmdAction.Execute`. -/
def cmdExecute (args : Args) (dryRun : Bool) (fs : FsState)
    (lookPathOk : Bool) (shell : ShellResult) : Protocol.RunResponse :=
  match args "command" with
  | none => Protocol.NewErrorResponse "" "action cmd: missing required argument: command" 0
  | some command =>
    if command = "" then
      Protocol.NewErrorResponse "" "action cmd: missing required argument: command" 0
    else if dryRun then
      if strFields command ≠ [] ∧ ¬lookPathOk then
        Protocol.NewRunResponse "" false 0 "Dry run: Command not found in PATH" "" 0
      else
        Protocol.NewRunResponse "" true 0 "Dry run: Would execute command" "" 0
    else
      let creates := argD args "creates"
      if creates ≠ "" ∧ ((fs.files creates).isSome ∨ fs.dirs creates) then
        { requestId := "", status := .ok, changed := false, exitCode := 0,
          stdout := "", stderr := "", errMsg := "", durationMs := 0 }
      else if shell.startErr then
        Protocol.NewErrorResponse "" "exec start failure" 0
      else
        Protocol.NewRunResponse "" true shell.exitCode shell.stdout shell.stderr 0

/-! ## `internal/actions/file.go` (`WriteFileAction.Execute`) -/

/-- The hash-based change test shared by the dry and real paths:
`true` unless an existing file's content hashes like the new content. -/
def writeChanged (fs : FsState) (path : String) (newBytes : List Nat) : Bool :=
  match fs.files path with
  | some f => !(computeHash f.content = computeHash newBytes)
  | none => true

/-- The owner-application tail of `WriteFileAction.Execute`: validate the
`user:group` shape, then `chown`. -/
def applyOwnerStage (args : Args) (path : String) (changed : Bool) (fs : FsState) :
    Protocol.RunResponse × FsState :=
  match args "owner" with
  | some o =>
    if o ≠ "" then
      if ¬ o.data.any (fun ch => ch = ':') then
        (Protocol.NewErrorResponse "" "invalid owner format" 0, fs)
      else
        (Protocol.NewRunResponse "" changed 0 "" "" 0, fs.chown path o)
    else (Protocol.NewRunResponse "" changed 0 "" "" 0, fs)
  | none => (Protocol.NewRunResponse "" changed 0 "" "" 0, fs)

/-- `WriteFileAction.Execute`: validate args; on dry run check the parent
directory and report the hash comparison; on a real run write when the
hash differs, then apply `mode` and `owner` when present. -/
def writeFileExecute (args : Args) (dryRun : Bool) (fs : FsState) :
    Protocol.RunResponse × FsState :=
  match args "path" with
  | none => (Protocol.NewErrorResponse "" "action write_file: missing required argument: path" 0, fs)
  | some path =>
    if path = "" then
      (Protocol.NewErrorResponse "" "action write_file: missing required argument: path" 0, fs)
    else
      match args "content" with
      | none => (Protocol.NewErrorResponse "" "action write_file: missing required argument: content" 0, fs)
      | some content =>
        let newBytes := strBytes content
        if dryRun then
          if !fs.dirs (dirname path) then
            (Protocol.NewErrorResponse "" "dry run: directory does not exist" 0, fs)
          else
            (Protocol.NewRunResponse "" (writeChanged fs path newBytes) 0
              (if writeChanged fs path newBytes then "Dry run: Would update file content"
               else "Dry run: Content match") "" 0, fs)
        else
          let changed := writeChanged fs path newBytes
          let fs1 := if changed then fs.writeFile path newBytes else fs
          match args "mode" with
          | some m =>
            if m ≠ "" then
              match parseOctal m with
              | none => (Protocol.NewErrorResponse "" "invalid mode" 0, fs1)
              | some mv =>
                let fs2 := fs1.chmod path mv
                applyOwnerStage args path changed fs2
            else applyOwnerStage args path changed fs1
          | none => applyOwnerStage args path changed fs1

/-! ## `internal/actions/template.go` (`TemplateFileAction.Execute`)

`text/template` rendering (including the JSON `vars` decode) is an
external collaborator, modelled as a `render` oracle returning `none` on
a parse or execution error. -/

/-- `TemplateFileAction.Execute`. -/
def templateExecute (render : String → String → Option String)
    (args : Args) (dryRun : Bool) (fs : FsState) :
    Protocol.RunResponse × FsState :=
  match args "path" with
  | none => (Protocol.NewErrorResponse "" "action template_file: missing required argument: path" 0, fs)
  | some path =>
    if path = "" then
      (Protocol.NewErrorResponse "" "action template_file: missing required argument: path" 0, fs)
    else
      match args "template" with
      | none => (Protocol.NewErrorResponse "" "action template_file: missing required argument: template" 0, fs)
      | some tpl =>
        if tpl = "" then
          (Protocol.NewErrorResponse "" "action template_file: missing required argument: template" 0, fs)
        else
          match render tpl (argD args "vars") with
          | none => (Protocol.NewErrorResponse "" "template error" 0, fs)
          | some rendered =>
            let newBytes := strBytes rendered
            if dryRun then
              (Protocol.NewRunResponse "" (writeChanged fs path newBytes) 0
                (if writeChanged fs path newBytes then "Dry run: Would render template to file"
                 else "Dry run: Content match") "" 0, fs)
            else
              let changed := writeChanged fs path newBytes
              let fs1 := if changed then fs.writeFile path newBytes else fs
              match args "mode" with
              | some m =>
                if m ≠ "" then
                  match parseOctal m with
                  | none => (Protocol.NewErrorResponse "" "invalid mode" 0, fs1)
                  | some mv => (Protocol.NewRunResponse "" changed 0 "" "" 0, fs1.chmod path mv)
                else (Protocol.NewRunResponse "" changed 0 "" "" 0, fs1)
              | none => (Protocol.NewRunResponse "" changed 0 "" "" 0, fs1)

/-! ## `internal/actions/artifact.go` (`DeployArtifactAction.Execute`)

The per-destination mutex serialises concurrent transfers; a single
serialised execution is embedded here. -/

/-- `DeployArtifactAction.Execute` for one chunk request. -/
def artifactExecute (args : Args) (dryRun : Bool) (fs : FsState) :
    Protocol.RunResponse × FsState :=
  let destPath := argD args "dest"
  if destPath = "" then
    (Protocol.NewErrorResponse "" "missing dest argument" 0, fs)
  else
    let chunkDataB64 := argD args "chunk_data"
    if chunkDataB64 = "" then
      (Protocol.NewErrorResponse "" "missing chunk_data argument" 0, fs)
    else
      match atoi (argD args "chunk_index") with
      | none => (Protocol.NewErrorResponse "" "invalid chunk_index" 0, fs)
      | some chunkIndex =>
        match atoi (argD args "total_chunks") with
        | none => (Protocol.NewErrorResponse "" "invalid total_chunks" 0, fs)
        | some totalChunks =>
          let checksum := argD args "checksum"
          let modeStr := argD args "mode"
          let mode :=
            if modeStr ≠ "" then
              match parseOctal modeStr with
              | some m => m
              | none => 0o644
            else 0o644
          if dryRun then
            (Protocol.NewRunResponse "" false 0 "Would write chunk" "" 0, fs)
          else
            match b64Decode chunkDataB64 with
            | none => (Protocol.NewErrorResponse "" "base64 decode failed" 0, fs)
            | some data =>
              let fs1 :=
                if chunkIndex = 0 then fs.addDir (dirname destPath) else fs
              let base :=
                if chunkIndex = 0 then
                  match fs1.files destPath with
                  | some f => { f with content := [] }
                  | none => { content := [], mode := mode, owner := "" }
                else
                  match fs1.files destPath with
                  | some f => f
                  | none => { content := [], mode := mode, owner := "" }
              let written : FileRec := { base with content := base.content ++ data }
              let fs2 := fs1.setFile destPath written
              if chunkIndex = totalChunks - 1 ∧ checksum ≠ "" then
                if computeHash written.content ≠ checksum then
                  (Protocol.NewErrorResponse "" "checksum mismatch" 0, fs2)
                else
                  (Protocol.NewRunResponse "" true 0 "Received chunk - Checksum Verified" "" 0, fs2)
              else
                (Protocol.NewRunResponse "" true 0 "Received chunk" "" 0, fs2)

/-! ## `internal/actions` (`SystemdAction`)

The systemd unit state visible through `systemctl is-enabled` and
`systemctl is-active`, and the mutations `systemctl <action> <unit>`
performs, are embedded explicitly; the exit code and captured output of
the `systemctl` invocation are an oracle input like the shell of `cmd`. -/

/-- Unit state as `systemctl is-enabled` / `is-active` report it. -/
structure UnitState where
  enabled : String → Bool
  active : String → Bool

/-- Outcome of one `exec.Command("systemctl", ...).Run()`. -/
structure SysctlResult where
  startErr : Bool
  exitCode : Int
  stdout : String
  stderr : String
deriving DecidableEq, Repr

/-- The unit-state mutation a successful `systemctl <action> <unit>`
performs. -/
def applySystemctl (st : UnitState) (action unit : String) : UnitState :=
  if action = "enable" then
    { st with enabled := fun u => if u = unit then true else st.enabled u }
  else if action = "disable" then
    { st with enabled := fun u => if u = unit then false else st.enabled u }
  else if action = "start" then
    { st with active := fun u => if u = unit then true else st.active u }
  else if action = "stop" then
    { st with active := fun u => if u = unit then false else st.active u }
  else if action = "restart" then
    { st with active := fun u => if u = unit then true else st.active u }
  else st

/-- `SystemdAction.checkEnabledStateChange`. -/
def checkEnabledStateChange (st : UnitState) (unit action : String) : Bool :=
  if action = "enable" then !st.enabled unit
  else if action = "disable" then st.enabled unit
  else true

/-- `SystemdAction.checkActiveStateChange`. -/
def checkActiveStateChange (st : UnitState) (unit action : String) : Bool :=
  if action = "start" then !st.active unit
  else if action = "stop" then st.active unit
  else true

/-- The `switch action` change prediction of `SystemdAction.Execute`. -/
def systemdChanged (st : UnitState) (action unit : String) : Bool :=
  if action = "enable" ∨ action = "disable" then
    checkEnabledStateChange st unit action
  else if action = "start" ∨ action = "stop" then
    checkActiveStateChange st unit action
  else if action = "restart" then st.active unit
  else true

/-- The valid systemd verbs. -/
def systemdValidAction (action : String) : Bool :=
  action = "enable" || action = "disable" || action = "start" ||
  action = "stop" || action = "restart" || action = "daemon-reload"

/-- Modelled from the spec: the dispatcher calls
`Execute(requestID, args, dryRun)` on every registered action, but the
source tree holds only a legacy two-argument `SystemdAction.Execute`
with no `dryRun` parameter (it cannot satisfy the `Action` interface the
registry and agent use), so the dry-run branch is missing from the
source. Following §4.4 — "systemd and deploy_artifact: return a
synthesised 'would do X' reply without side-effects" — the dry branch
below returns a synthesised reply carrying the same pre-check change
prediction and touches nothing. The real branch is translated from the
two-argument variant: validate the action and unit, predict `changed`
from the `is-enabled`/`is-active` pre-checks, then run `systemctl`
(mutating the unit state when it succeeds). -/
def systemdExecute (args : Args) (dryRun : Bool) (st : UnitState)
    (sysctl : SysctlResult) : Protocol.RunResponse × UnitState :=
  match args "action" with
  | none =>
    (Protocol.NewErrorResponse "" "action systemd: missing required argument: action" 0, st)
  | some action =>
    if action = "" then
      (Protocol.NewErrorResponse "" "action systemd: missing required argument: action" 0, st)
    else
      let unit := argD args "unit"
      if action ≠ "daemon-reload" ∧ unit = "" then
        (Protocol.NewErrorResponse "" "action systemd: missing required argument: unit" 0, st)
      else if ¬systemdValidAction action then
        (Protocol.NewErrorResponse "" "invalid systemd action" 0, st)
      else
        let changed := systemdChanged st action unit
        if dryRun then
          (Protocol.NewRunResponse "" changed 0 "Dry run: Would run systemctl" "" 0, st)
        else if sysctl.startErr then
          (Protocol.NewErrorResponse "" "exec start failure" 0, st)
        else
          (Protocol.NewRunResponse "" changed sysctl.exitCode sysctl.stdout sysctl.stderr 0,
            if sysctl.exitCode = 0 then applySystemctl st action unit else st)

/-! ## `cmd/stapply-ctl/main.go`: the per-step tally loop of `cmdRun` -/

namespace Ctl

/-- What one dispatched step can come back as, mirroring the error and
reply paths of the step loop in `cmdRun`. -/
inductive StepOutcome where
  | marshalErr
  | encryptErr
  | reqTimeout
  | transportErr
  | decryptErr
  | parseErr
  | reply (status : Protocol.Status) (changed : Bool)
deriving DecidableEq, Repr

/-- The three per-host counters. -/
structure Tally where
  ok : Nat
  changed : Nat
  failed : Nat
deriving DecidableEq, Repr

/-- All-zero counters. -/
def Tally.zero : Tally := { ok := 0, changed := 0, failed := 0 }

/-- One pass of the step loop body: the `switch resp.Status` of `cmdRun`
plus its error paths. A wire reply with status `timeout` falls through
the switch without touching any counter. -/
def stepTally (t : Tally) : StepOutcome → Tally
  | .marshalErr => { t with failed := t.failed + 1 }
  | .encryptErr => { t with failed := t.failed + 1 }
  | .reqTimeout => { t with failed := t.failed + 1 }
  | .transportErr => { t with failed := t.failed + 1 }
  | .decryptErr => { t with failed := t.failed + 1 }
  | .parseErr => { t with failed := t.failed + 1 }
  | .reply .ok true => { t with changed := t.changed + 1 }
  | .reply .ok false => { t with ok := t.ok + 1 }
  | .reply .failed _ => { t with failed := t.failed + 1 }
  | .reply .error _ => { t with failed := t.failed + 1 }
  | .reply .timeout _ => t

/-- The step loop of one host worker: every outcome is consumed in order,
with no short-circuit. -/
def runHostSteps (t : Tally) (outcomes : List StepOutcome) : Tally :=
  outcomes.foldl stepTally t

/-- Merge one host's counters into the totals (the drain loop over the
result channel; addition is commutative, so arrival order is immaterial). -/
def Tally.add (a b : Tally) : Tally :=
  { ok := a.ok + b.ok, changed := a.changed + b.changed, failed := a.failed + b.failed }

/-- The controller's final counters: per-host tallies summed. -/
def summarize (hosts : List (List StepOutcome)) : Tally :=
  (hosts.map (runHostSteps Tally.zero)).foldl Tally.add Tally.zero

/-- The process exit code after the summary line. -/
def exitCode (t : Tally) : Nat := if t.failed > 0 then 1 else 0

/-- Outcomes the loop counts as failed. -/
def countsAsFailed : StepOutcome → Bool
  | .reply .ok _ => false
  | .reply .timeout _ => false
  | .reply _ _ => true
  | _ => true

/-- Outcomes counted as `ok` (reply `ok`, `changed=false`). -/
def countsAsOk : StepOutcome → Bool
  | .reply .ok false => true
  | _ => false

/-- Outcomes counted as `changed` (reply `ok`, `changed=true`). -/
def countsAsChanged : StepOutcome → Bool
  | .reply .ok true => true
  | _ => false

/-! ### The host scheduler: semaphore-gated fan-out (`main.go` 609–629)

The main loop acquires one slot of a buffered channel of width
`concurrency` before spawning each host worker; the worker releases the
slot when it finishes. The scheduler below is that discipline as a step
relation: `spawn` fires only while a slot is free, `finish` retires a
running worker. -/

/-- `concurrency := env.Concurrency; if concurrency <= 0 then len(hosts)`. -/
def effectiveConcurrency (c : Int) (n : Nat) : Nat :=
  if c ≤ 0 then n else c.toNat

/-- Scheduler state: how many workers have been spawned and finished. -/
structure SchedState where
  started : Nat
  finished : Nat
deriving DecidableEq, Repr

/-- Workers currently in flight. -/
def inFlight (s : SchedState) : Nat := s.started - s.finished

/-- One scheduler transition under semaphore width `cap` and `n` hosts. -/
inductive SchedStep (cap n : Nat) : SchedState → SchedState → Prop where
  | spawn (s : SchedState) (hn : s.started < n) (hc : inFlight s < cap) :
      SchedStep cap n s { started := s.started + 1, finished := s.finished }
  | finish (s : SchedState) (h : s.finished < s.started) :
      SchedStep cap n s { started := s.started, finished := s.finished + 1 }

/-- States reachable from the idle start. -/
inductive SchedReach (cap n : Nat) : SchedState → Prop where
  | init : SchedReach cap n { started := 0, finished := 0 }
  | step {s s' : SchedState} : SchedReach cap n s → SchedStep cap n s s' →
      SchedReach cap n s'

end Ctl

/-! ## Supporting lemmas: AES-GCM structure -/

/-- AES always yields a 16-byte block (every stage builds an explicit
16-element list). -/
theorem aesBlock_length (key block : List Nat) : (aesBlock key block).length = 16 := rfl

/-- The tag is always 16 bytes. -/
theorem gcmTag_length (key nonce c : List Nat) : (gcmTag key nonce c).length = 16 := rfl

/-- `n` CTR blocks are `16 * n` bytes. -/
theorem ctrBlocks_length (key : List Nat) : ∀ (n : Nat) (counter : List Nat),
    (ctrBlocks key counter n).length = 16 * n
  | 0, _ => rfl
  | n + 1, counter => by
    simp [ctrBlocks, aesBlock_length, ctrBlocks_length key n]
    ring

/-- The keystream has exactly the requested length. -/
theorem keystream_length (key nonce : List Nat) (n : Nat) :
    (keystream key nonce n).length = n := by
  simp [keystream, ctrBlocks_length]
  omega

/-- Xoring the same keystream twice is the identity. -/
theorem xorBytes_cancel : ∀ (xs ks : List Nat), ks.length = xs.length →
    xorBytes (xorBytes xs ks) ks = xs
  | [], [], _ => rfl
  | [], _ :: _, h => by simp at h
  | _ :: _, [], h => by simp at h
  | x :: xs, k :: ks, h => by
    have ih := xorBytes_cancel xs ks (by simpa using h)
    simp [xorBytes] at ih ⊢
    exact ⟨Nat.xor_cancel_right k x, ih⟩

/-- CTR encryption and decryption preserve length. -/
theorem gcmCtr_length (key nonce data : List Nat) :
    (gcmCtr key nonce data).length = data.length := by
  simp [gcmCtr, xorBytes, keystream_length]

/-- CTR mode is an involution. -/
theorem gcmCtr_gcmCtr (key nonce x : List Nat) :
    gcmCtr key nonce (gcmCtr key nonce x) = x := by
  have hlen : (gcmCtr key nonce x).length = x.length := gcmCtr_length key nonce x
  show xorBytes (gcmCtr key nonce x) (keystream key nonce (gcmCtr key nonce x).length) = x
  rw [hlen]
  exact xorBytes_cancel x (keystream key nonce x.length)
    (keystream_length key nonce x.length)

/-- `gcm.Open` undoes `gcm.Seal`: the tag recomputed over the ciphertext
matches the stored one, and the CTR layer cancels. -/
theorem gcmOpen_gcmSeal (key nonce x : List Nat) :
    gcmOpen key nonce (gcmSeal key nonce x) = some x := by
  unfold gcmSeal gcmOpen
  have hct : (gcmCtr key nonce x).length = x.length := gcmCtr_length key nonce x
  have htag : (gcmTag key nonce (gcmCtr key nonce x)).length = 16 :=
    gcmTag_length key nonce (gcmCtr key nonce x)
  have hlen : (gcmCtr key nonce x ++ gcmTag key nonce (gcmCtr key nonce x)).length
      = x.length + 16 := by simp [htag, hct]
  rw [if_neg (by omega)]
  have hsub : (gcmCtr key nonce x ++ gcmTag key nonce (gcmCtr key nonce x)).length - 16
      = (gcmCtr key nonce x).length := by omega
  rw [hsub, List.take_left, List.drop_left, if_pos rfl, gcmCtr_gcmCtr]

/-! ## C1 -/

/-- **C1.** For every plaintext `x` and non-empty secret `k`,
`Decrypt (Encrypt x k) k = x`, where the envelope is AES-GCM with the
12-byte nonce prefixed to ciphertext-plus-tag and the key is SHA-256 of
the secret; and two encryptions of the same `x` under distinct fresh
nonces differ. -/
theorem c1_encrypt_decrypt_roundtrip (x : List Nat) (k : String)
    (n1 n2 : List Nat) (hk : k ≠ "") (h1 : n1.length = 12)
    (h2 : n2.length = 12) (hne : n1 ≠ n2) :
    (∃ e, Encrypt x k n1 = some e ∧ Decrypt e k = some x) ∧
      Encrypt x k n1 ≠ Encrypt x k n2 := by
  constructor
  · refine ⟨n1 ++ gcmSeal (DeriveKey k) n1 x, ?_, ?_⟩
    · simp [Encrypt, hk]
    · unfold Decrypt
      rw [if_neg hk]
      have hlen : (n1 ++ gcmSeal (DeriveKey k) n1 x).length
          = 12 + (gcmSeal (DeriveKey k) n1 x).length := by simp [h1]
      rw [if_neg (by omega), List.take_left' h1, List.drop_left' h1]
      exact gcmOpen_gcmSeal (DeriveKey k) n1 x
  · intro heq
    simp [Encrypt, hk] at heq
    have := congrArg (List.take 12) heq
    rw [List.take_left' h1, List.take_left' h2] at this
    exact hne this

/-- Witness for C1 at a concrete plaintext, secret and nonce pair. -/
theorem c1_encrypt_decrypt_roundtrip_witness :
    ("secret" ≠ "" ∧
      ([0, 0, 0, 0, 0, 0, 0, 0, 0, 0, 0, 0] : List Nat).length = 12 ∧
      ([0, 0, 0, 0, 0, 0, 0, 0, 0, 0, 0, 1] : List Nat).length = 12 ∧
      ([0, 0, 0, 0, 0, 0, 0, 0, 0, 0, 0, 0] : List Nat) ≠
        [0, 0, 0, 0, 0, 0, 0, 0, 0, 0, 0, 1]) ∧
    ((∃ e, Encrypt [104, 105] "secret" [0, 0, 0, 0, 0, 0, 0, 0, 0, 0, 0, 0] = some e ∧
        Decrypt e "secret" = some [104, 105]) ∧
      Encrypt [104, 105] "secret" [0, 0, 0, 0, 0, 0, 0, 0, 0, 0, 0, 0] ≠
        Encrypt [104, 105] "secret" [0, 0, 0, 0, 0, 0, 0, 0, 0, 0, 0, 1]) :=
  ⟨⟨by decide, by decide, by decide, by decide⟩,
    c1_encrypt_decrypt_roundtrip [104, 105] "secret" _ _
      (by decide) (by decide) (by decide) (by decide)⟩

/-! ## Supporting lemmas: CIDR masks as arithmetic ranges -/

/-- Bitwise AND with a high mask keeps the quotient by `2^k` (bounded to
`m` bits). -/
theorem land_high (x m k : Nat) :
    x &&& ((2 ^ m - 1) <<< k) = ((x >>> k) % 2 ^ m) <<< k := by
  apply Nat.eq_of_testBit_eq
  intro i
  simp only [Nat.testBit_land, Nat.testBit_shiftLeft, Nat.testBit_mod_two_pow,
    Nat.testBit_shiftRight, Nat.testBit_two_pow_sub_one]
  by_cases h : k ≤ i
  · have : k + (i - k) = i := by omega
    simp [ge_iff_le, h, this, Bool.and_comm, Bool.and_left_comm]
  · simp [ge_iff_le, h]

/-- The spec's five allowed ranges, written as the interval arithmetic of
§6.4 (the spec-side rendering, to be compared with `IsPrivateNetwork`). -/
def specPrivateRanges (ip : Nat) : Bool :=
  (decide (ipv4 127 0 0 0 ≤ ip) && decide (ip < ipv4 128 0 0 0)) ||
  (decide (ipv4 10 0 0 0 ≤ ip) && decide (ip < ipv4 11 0 0 0)) ||
  (decide (ipv4 172 16 0 0 ≤ ip) && decide (ip < ipv4 172 32 0 0)) ||
  (decide (ipv4 192 168 0 0 ≤ ip) && decide (ip < ipv4 192 169 0 0)) ||
  (decide (ipv4 100 64 0 0 ≤ ip) && decide (ip < ipv4 100 128 0 0))

/-- The code's mask tests coincide with the spec's interval ranges on
32-bit addresses. -/
theorem isPrivate_eq_ranges (ip : Nat) (h : ip < 4294967296) :
    IsPrivateNetwork ip = specPrivateRanges ip := by
  have h8 : maskBits 8 = (2 ^ 8 - 1) <<< 24 := by decide
  have h10 : maskBits 10 = (2 ^ 10 - 1) <<< 22 := by decide
  have h12 : maskBits 12 = (2 ^ 12 - 1) <<< 20 := by decide
  have h16 : maskBits 16 = (2 ^ 16 - 1) <<< 16 := by decide
  simp only [IsPrivateNetwork, specPrivateRanges, cidrContains, h8, h10, h12, h16,
    land_high]
  simp only [Nat.shiftRight_eq_div_pow, Nat.shiftLeft_eq, ipv4]
  norm_num
  rw [Bool.eq_iff_iff]
  simp only [Bool.or_eq_true, Bool.and_eq_true, decide_eq_true_eq]
  omega

/-! ## C2 -/

/-- The gate as a boolean normal form: non-empty resolution, and either a
private address or the public override. -/
theorem validateResolved_eq (ips : List Nat) (ap : Bool) :
    ValidateNATSURLResolved ips ap =
      (!ips.isEmpty && (ips.any IsPrivateNetwork || ap)) := by
  unfold ValidateNATSURLResolved
  cases h1 : ips.isEmpty <;> cases h2 : ips.any IsPrivateNetwork <;> cases ap <;>
    simp [h1, h2]

/-- **C2 (counterexample).** With `allow_public=false`, a URL whose
resolution contains the public address `8.8.8.8` alongside one private
address is accepted, although the claim requires every resolved address
to be private. -/
theorem c2_private_network_gate_counterexample :
    ValidateNATSURLResolved [ipv4 8 8 8 8, ipv4 192 168 1 1] false = true ∧
      IsPrivateNetwork (ipv4 8 8 8 8) = false := by decide

/-- **C2 (amended).** With `allow_public=false` the gate accepts exactly
the URLs whose non-empty resolution contains *at least one* private
address (not: resolves entirely into private ranges); the private test
itself agrees with the five listed CIDR ranges on 32-bit addresses. -/
theorem c2_private_network_gate_amended :
    (∀ (ips : List Nat) (allowPublic : Bool),
        ValidateNATSURLResolved ips allowPublic = true ↔
          ips ≠ [] ∧ (allowPublic = true ∨ ∃ ip ∈ ips, IsPrivateNetwork ip = true)) ∧
    (∀ ip : Nat, ip < 4294967296 → IsPrivateNetwork ip = specPrivateRanges ip) := by
  constructor
  · intro ips allowPublic
    rw [validateResolved_eq]
    simp [List.any_eq_true]
    intro _
    exact or_comm
  · exact isPrivate_eq_ranges

/-- Witness for C2 (amended) at a concrete private address. -/
theorem c2_private_network_gate_amended_witness :
    (ipv4 10 1 2 3 < 4294967296) ∧
      IsPrivateNetwork (ipv4 10 1 2 3) = specPrivateRanges (ipv4 10 1 2 3) :=
  ⟨by decide, c2_private_network_gate_amended.2 (ipv4 10 1 2 3) (by decide)⟩

/-! ## C3 -/

/-- Literal argument maps used by concrete executions. -/
def argsOf (l : List (String × String)) : Args :=
  fun k => (l.find? (fun p => p.1 = k)).map Prod.snd

/-- **C3 (counterexample).** A `cmd` action whose shell run exits with
code 1 is replied as `status=failed` with the captured output — but its
`changed` flag is `true`, not `false` as claimed: `cmd` reports
changed=true whenever it executed. -/
theorem c3_failed_changed_counterexample :
    (cmdExecute (argsOf [("command", "false")]) false FsState.empty true
        { startErr := false, exitCode := 1, stdout := "", stderr := "boom" }).status =
      Protocol.Status.failed ∧
    (cmdExecute (argsOf [("command", "false")]) false FsState.empty true
        { startErr := false, exitCode := 1, stdout := "", stderr := "boom" }).exitCode = 1 ∧
    (cmdExecute (argsOf [("command", "false")]) false FsState.empty true
        { startErr := false, exitCode := 1, stdout := "", stderr := "boom" }).changed = true := by
  decide

/-- **C3 (amended).** Every reply built by `NewRunResponse` from a
non-zero exit code has `status=failed` with the exit code, stdout and
stderr captured, and `changed` passed through as the action computed it;
an executed `cmd` that exits non-zero in particular reports
`status=failed` and `changed=true`. -/
theorem c3_failed_status_amended :
    (∀ (requestId : String) (changed : Bool) (exitCode : Int)
        (stdout stderr : String) (durationMs : Int), exitCode ≠ 0 →
        (Protocol.NewRunResponse requestId changed exitCode stdout stderr durationMs).status =
            Protocol.Status.failed ∧
        (Protocol.NewRunResponse requestId changed exitCode stdout stderr durationMs).exitCode =
            exitCode ∧
        (Protocol.NewRunResponse requestId changed exitCode stdout stderr durationMs).stdout =
            stdout ∧
        (Protocol.NewRunResponse requestId changed exitCode stdout stderr durationMs).stderr =
            stderr ∧
        (Protocol.NewRunResponse requestId changed exitCode stdout stderr durationMs).changed =
            changed) ∧
    (∀ (args : Args) (fs : FsState) (look : Bool) (sh : ShellResult) (command : String),
        args "command" = some command → command ≠ "" →
        argD args "creates" = "" → sh.startErr = false → sh.exitCode ≠ 0 →
        (cmdExecute args false fs look sh).status = Protocol.Status.failed ∧
        (cmdExecute args false fs look sh).exitCode = sh.exitCode ∧
        (cmdExecute args false fs look sh).stdout = sh.stdout ∧
        (cmdExecute args false fs look sh).stderr = sh.stderr ∧
        (cmdExecute args false fs look sh).changed = true) := by
  constructor
  · intro requestId changed exitCode stdout stderr durationMs hne
    simp [Protocol.NewRunResponse, hne]
  · intro args fs look sh command hcmd hcne hcr hstart hexit
    simp [cmdExecute, hcmd, hcne, hcr, hstart, Protocol.NewRunResponse, hexit]

/-- Witness for C3 (amended) at a concrete failing command. -/
theorem c3_failed_status_amended_witness :
    ((1 : Int) ≠ 0 ∧
      (argsOf [("command", "false")]) "command" = some "false" ∧
      ("false" : String) ≠ "" ∧
      argD (argsOf [("command", "false")]) "creates" = "" ∧
      (ShellResult.mk false 1 "out" "err").startErr = false ∧
      (ShellResult.mk false 1 "out" "err").exitCode ≠ 0) ∧
    ((Protocol.NewRunResponse "r" true 1 "out" "err" 0).status = Protocol.Status.failed ∧
      (Protocol.NewRunResponse "r" true 1 "out" "err" 0).exitCode = 1 ∧
      (Protocol.NewRunResponse "r" true 1 "out" "err" 0).stdout = "out" ∧
      (Protocol.NewRunResponse "r" true 1 "out" "err" 0).stderr = "err" ∧
      (Protocol.NewRunResponse "r" true 1 "out" "err" 0).changed = true) ∧
    ((cmdExecute (argsOf [("command", "false")]) false FsState.empty true
        (ShellResult.mk false 1 "out" "err")).status = Protocol.Status.failed ∧
      (cmdExecute (argsOf [("command", "false")]) false FsState.empty true
        (ShellResult.mk false 1 "out" "err")).exitCode =
          (ShellResult.mk false 1 "out" "err").exitCode ∧
      (cmdExecute (argsOf [("command", "false")]) false FsState.empty true
        (ShellResult.mk false 1 "out" "err")).stdout =
          (ShellResult.mk false 1 "out" "err").stdout ∧
      (cmdExecute (argsOf [("command", "false")]) false FsState.empty true
        (ShellResult.mk false 1 "out" "err")).stderr =
          (ShellResult.mk false 1 "out" "err").stderr ∧
      (cmdExecute (argsOf [("command", "false")]) false FsState.empty true
        (ShellResult.mk false 1 "out" "err")).changed = true) :=
  ⟨⟨by decide, by decide, by decide, by decide, by decide, by decide⟩,
    c3_failed_status_amended.1 "r" true 1 "out" "err" 0 (by decide),
    c3_failed_status_amended.2 (argsOf [("command", "false")]) FsState.empty true
      (ShellResult.mk false 1 "out" "err") "false" (by decide) (by decide)
      (by decide) (by decide) (by decide)⟩

/-! ## C4 -/

namespace Ctl

/-- The step loop's counters are exactly the outcome counts, whatever the
starting tally: no outcome interrupts the processing of later steps. -/
theorem runHostSteps_counts (os : List StepOutcome) : ∀ t : Tally,
    runHostSteps t os =
      { ok := t.ok + os.countP countsAsOk,
        changed := t.changed + os.countP countsAsChanged,
        failed := t.failed + os.countP countsAsFailed } := by
  induction os with
  | nil => intro t; simp [runHostSteps, List.countP_nil]
  | cons o os ih =>
    intro t
    have step : runHostSteps t (o :: os) = runHostSteps (stepTally t o) os := rfl
    rw [step, ih]
    rcases o with _ | _ | _ | _ | _ | _ | ⟨st, ch⟩ <;>
      first
      | (simp [stepTally, countsAsOk, countsAsChanged, countsAsFailed,
          List.countP_cons]; omega)
      | (rcases st with _ | _ | _ | _ <;> rcases ch with _ | _ <;>
          simp [stepTally, countsAsOk, countsAsChanged, countsAsFailed,
            List.countP_cons] <;> omega)

end Ctl

/-- **C4.** Per step: reply `ok` with `changed=true` bumps the changed
counter, `ok` with `changed=false` bumps the ok counter, and reply
`failed`, reply `error` or a controller-side timeout bumps the failed
counter; no outcome stops the remaining steps (the final counters are
the plain outcome counts of the whole list); once all workers are
drained the process exit code is non-zero iff the failed counter is
positive. -/
theorem c4_tally_and_exit_code :
    (∀ (t : Ctl.Tally) (b : Bool),
        Ctl.stepTally t (.reply .ok true) = { t with changed := t.changed + 1 } ∧
        Ctl.stepTally t (.reply .ok false) = { t with ok := t.ok + 1 } ∧
        Ctl.stepTally t (.reply .failed b) = { t with failed := t.failed + 1 } ∧
        Ctl.stepTally t (.reply .error b) = { t with failed := t.failed + 1 } ∧
        Ctl.stepTally t .reqTimeout = { t with failed := t.failed + 1 }) ∧
    (∀ os : List Ctl.StepOutcome,
        Ctl.runHostSteps Ctl.Tally.zero os =
          { ok := os.countP Ctl.countsAsOk,
            changed := os.countP Ctl.countsAsChanged,
            failed := os.countP Ctl.countsAsFailed }) ∧
    (∀ hosts : List (List Ctl.StepOutcome),
        Ctl.exitCode (Ctl.summarize hosts) ≠ 0 ↔ 0 < (Ctl.summarize hosts).failed) := by
  refine ⟨?_, ?_, ?_⟩
  · intro t b
    exact ⟨rfl, rfl, rfl, rfl, rfl⟩
  · intro os
    rw [Ctl.runHostSteps_counts]
    simp [Ctl.Tally.zero]
  · intro hosts
    unfold Ctl.exitCode
    split <;> omega

/-! ## C8 -/

namespace Ctl

/-- Scheduler invariant: finishes never outrun starts, at most `n` hosts
are ever started, and the semaphore keeps at most `cap` in flight. -/
theorem schedReach_invariant {cap n : Nat} {s : SchedState}
    (h : SchedReach cap n s) :
    s.finished ≤ s.started ∧ s.started ≤ n ∧ inFlight s ≤ cap := by
  induction h with
  | init => simp [inFlight]
  | step hr hs ih =>
    cases hs with
    | spawn hn hc =>
      simp only [inFlight] at *
      omega
    | finish h2 =>
      simp only [inFlight] at *
      omega

/-- With an unbounded ceiling every host can run at once: the all-started
state is reachable. -/
theorem schedReach_all (n : Nat) : ∀ k, k ≤ n →
    SchedReach n n { started := k, finished := 0 }
  | 0, _ => .init
  | k + 1, h =>
    .step (schedReach_all n k (by omega))
      (by
        have hn : k < n := by omega
        have hc : inFlight { started := k, finished := 0 } < n := by
          simp [inFlight]; omega
        exact SchedStep.spawn { started := k, finished := 0 } hn hc)

end Ctl

/-- **C8.** With a positive ceiling `C` and `N` hosts, no reachable
scheduler state has more than `min C N` workers in flight; a non-positive
ceiling is replaced by the host count, under which the state with all
`N` hosts running at once is reachable. -/
theorem c8_concurrency_ceiling :
    (∀ (c : Int) (n : Nat) (s : Ctl.SchedState), 0 < c →
        Ctl.SchedReach (Ctl.effectiveConcurrency c n) n s →
        Ctl.inFlight s ≤ min c.toNat n) ∧
    (∀ (c : Int) (n : Nat), c ≤ 0 →
        Ctl.effectiveConcurrency c n = n ∧
        Ctl.SchedReach (Ctl.effectiveConcurrency c n) n
          { started := n, finished := 0 }) := by
  constructor
  · intro c n s hc hr
    have heff : Ctl.effectiveConcurrency c n = c.toNat := by
      unfold Ctl.effectiveConcurrency
      rw [if_neg (by omega)]
    rw [heff] at hr
    have hinv := Ctl.schedReach_invariant hr
    simp only [Ctl.inFlight] at *
    omega
  · intro c n hc
    have heff : Ctl.effectiveConcurrency c n = n := by
      unfold Ctl.effectiveConcurrency
      rw [if_pos hc]
    exact ⟨heff, by rw [heff]; exact Ctl.schedReach_all n n (Nat.le_refl n)⟩

/-- Witness for C8: ceiling 1 with two hosts, one worker in flight; and
the non-positive ceiling 0 with three hosts. -/
theorem c8_concurrency_ceiling_witness :
    ((0 : Int) < 1 ∧
      Ctl.SchedReach (Ctl.effectiveConcurrency 1 2) 2 { started := 1, finished := 0 } ∧
      (0 : Int) ≤ 0) ∧
    (Ctl.inFlight { started := 1, finished := 0 } ≤ min (Int.toNat 1) 2 ∧
      (Ctl.effectiveConcurrency 0 3 = 3 ∧
        Ctl.SchedReach (Ctl.effectiveConcurrency 0 3) 3 { started := 3, finished := 0 })) :=
  have hreach : Ctl.SchedReach (Ctl.effectiveConcurrency 1 2) 2
      { started := 1, finished := 0 } :=
    .step .init
      (Ctl.SchedStep.spawn { started := 0, finished := 0 } (by decide) (by decide))
  ⟨⟨by decide, hreach, by decide⟩,
    c8_concurrency_ceiling.1 1 2 { started := 1, finished := 0 } (by decide) hreach,
    c8_concurrency_ceiling.2 0 3 (by decide)⟩

/-! ## Supporting lemmas: `write_file` state tracking -/

/-- The byte content stored at a path, ignoring mode and owner. -/
def contentAt (fs : FsState) (q : String) : Option (List Nat) :=
  (fs.files q).map FileRec.content

/-- A fresh write stores exactly the new bytes. -/
theorem contentAt_writeFile (fs : FsState) (p : String) (b : List Nat) :
    contentAt (fs.writeFile p b) p = some b := by
  unfold contentAt FsState.writeFile FsState.setFile
  cases h : fs.files p <;> simp [h]

/-- `chmod` never touches content. -/
theorem contentAt_chmod (fs : FsState) (p : String) (m : Nat) (q : String) :
    contentAt (fs.chmod p m) q = contentAt fs q := by
  unfold contentAt FsState.chmod FsState.setFile
  cases h : fs.files p with
  | none => rfl
  | some f => by_cases hq : q = p <;> simp [h, hq]

/-- `chown` never touches content. -/
theorem contentAt_chown (fs : FsState) (p : String) (o : String) (q : String) :
    contentAt (fs.chown p o) q = contentAt fs q := by
  unfold contentAt FsState.chown FsState.setFile
  cases h : fs.files p with
  | none => rfl
  | some f => by_cases hq : q = p <;> simp [h, hq]

/-- The owner stage never touches content. -/
theorem applyOwnerStage_content (args : Args) (p : String) (ch : Bool)
    (fs : FsState) (q : String) :
    contentAt (applyOwnerStage args p ch fs).2 q = contentAt fs q := by
  unfold applyOwnerStage
  cases h : args "owner" with
  | none => rfl
  | some o =>
    by_cases ho : o = ""
    · simp [h, ho]
    · by_cases hcol : o.data.any (fun c => c = ':') <;>
        simp [h, ho, hcol, contentAt_chown]

/-- A `false` change flag survives the owner stage (the error reply also
carries `changed=false`). -/
theorem applyOwnerStage_changed_false (args : Args) (p : String) (fs : FsState) :
    (applyOwnerStage args p false fs).1.changed = false := by
  unfold applyOwnerStage
  cases h : args "owner" with
  | none => rfl
  | some o =>
    by_cases ho : o = ""
    · simp [h, ho, Protocol.NewRunResponse]
    · by_cases hcol : o.data.any (fun c => c = ':') <;>
        simp [h, ho, hcol, Protocol.NewRunResponse, Protocol.NewErrorResponse]

/-- The arguments carry no mode, an empty mode, or a parsable octal mode. -/
def modeArgOk (args : Args) : Bool :=
  match args "mode" with
  | none => true
  | some m => m == "" || (parseOctal m).isSome

/-- The arguments carry no owner, an empty owner, or a `user:group` one. -/
def ownerArgOk (args : Args) : Bool :=
  match args "owner" with
  | none => true
  | some o => o == "" || o.data.any (fun c => c = ':')

/-- When the owner argument is well-formed, the owner stage passes the
change flag straight through. -/
theorem applyOwnerStage_changed_ok (args : Args) (p : String) (ch : Bool)
    (fs : FsState) (hok : ownerArgOk args = true) :
    (applyOwnerStage args p ch fs).1.changed = ch := by
  unfold applyOwnerStage
  unfold ownerArgOk at hok
  cases h : args "owner" with
  | none => simp [Protocol.NewRunResponse]
  | some o =>
    rw [h] at hok
    by_cases ho : o = ""
    · simp [h, ho, Protocol.NewRunResponse]
    · have hcol : o.data.any (fun c => c = ':') = true := by
        simp [ho] at hok
        simpa using hok
      simp [h, ho, hcol, Protocol.NewRunResponse]

/-- The hash-based change test is `false` exactly when an existing file
already hashes like the new content. -/
theorem writeChanged_false_iff (fs : FsState) (p : String) (b : List Nat) :
    writeChanged fs p b = false ↔
      ∃ f, fs.files p = some f ∧ computeHash f.content = computeHash b := by
  unfold writeChanged
  cases h : fs.files p <;> simp [h]

/-- Content at the target path after a real `write_file` run: the new
bytes when the hash differed, the previous content otherwise — on every
reply path, including mode and owner errors. -/
theorem writeFileExecute_content (args : Args) (p c : String) (fs : FsState)
    (hp : args "path" = some p) (hpne : p ≠ "") (hc : args "content" = some c) :
    contentAt (writeFileExecute args false fs).2 p =
      (if writeChanged fs p (strBytes c) then some (strBytes c) else contentAt fs p) := by
  have hfs1 : ∀ fs1 : FsState,
      fs1 = (if writeChanged fs p (strBytes c) then fs.writeFile p (strBytes c) else fs) →
      contentAt fs1 p =
        (if writeChanged fs p (strBytes c) then some (strBytes c) else contentAt fs p) := by
    intro fs1 h
    subst h
    by_cases hch : writeChanged fs p (strBytes c) <;> simp [hch, contentAt_writeFile]
  unfold writeFileExecute
  simp only [hp, hc]
  rw [if_neg hpne]
  simp only [Bool.false_eq_true, if_false]
  cases hm : args "mode" with
  | none =>
    simp [hpne, applyOwnerStage_content]
    exact hfs1 _ rfl
  | some m =>
    by_cases hme : m = ""
    · simp [hpne, hme, applyOwnerStage_content]
      exact hfs1 _ rfl
    · cases hpm : parseOctal m with
      | none =>
        simp [hpne, hme, hpm]
        exact hfs1 _ rfl
      | some mv =>
        simp [hpne, hme, hpm, applyOwnerStage_content, contentAt_chmod]
        exact hfs1 _ rfl

/-- When the hash already matches, every reply path of a real
`write_file` run reports `changed=false`. -/
theorem writeFileExecute_changed_false (args : Args) (p c : String) (fs : FsState)
    (hp : args "path" = some p) (hpne : p ≠ "") (hc : args "content" = some c)
    (hch : writeChanged fs p (strBytes c) = false) :
    (writeFileExecute args false fs).1.changed = false := by
  unfold writeFileExecute
  simp only [hp, hc]
  rw [if_neg hpne]
  simp only [Bool.false_eq_true, if_false]
  cases hm : args "mode" with
  | none => simp [hpne, hch, applyOwnerStage_changed_false]
  | some m =>
    by_cases hme : m = ""
    · simp [hpne, hme, hch, applyOwnerStage_changed_false]
    · cases hpm : parseOctal m with
      | none => simp [hpne, hme, hpm, Protocol.NewErrorResponse]
      | some mv => simp [hpne, hme, hpm, hch, applyOwnerStage_changed_false]

/-- With well-formed mode and owner arguments, the reply's `changed` flag
of a real `write_file` run is exactly the hash comparison — mode and
owner application never flips it. -/
theorem writeFileExecute_changed (args : Args) (p c : String) (fs : FsState)
    (hp : args "path" = some p) (hpne : p ≠ "") (hc : args "content" = some c)
    (hmode : modeArgOk args = true) (howner : ownerArgOk args = true) :
    (writeFileExecute args false fs).1.changed = writeChanged fs p (strBytes c) := by
  unfold writeFileExecute
  simp only [hp, hc]
  rw [if_neg hpne]
  simp only [Bool.false_eq_true, if_false]
  unfold modeArgOk at hmode
  cases hm : args "mode" with
  | none => simp [hpne, applyOwnerStage_changed_ok _ _ _ _ howner]
  | some m =>
    rw [hm] at hmode
    by_cases hme : m = ""
    · simp [hpne, hme, applyOwnerStage_changed_ok _ _ _ _ howner]
    · cases hpm : parseOctal m with
      | none => simp [hme, hpm] at hmode
      | some mv => simp [hpne, hme, hpm, applyOwnerStage_changed_ok _ _ _ _ howner]

/-- The dry-run `changed` flag is the same hash comparison. -/
theorem writeFileExecute_dry_changed (args : Args) (p c : String) (fs : FsState)
    (hp : args "path" = some p) (hpne : p ≠ "") (hc : args "content" = some c)
    (hd : fs.dirs (dirname p) = true) :
    (writeFileExecute args true fs).1.changed = writeChanged fs p (strBytes c) := by
  unfold writeFileExecute
  simp [hp, hpne, hc, hd, Protocol.NewRunResponse]

/-! ## C5 -/

/-- **C5.** Running the same `write_file (path, content)` step twice in
sequence (dry_run=false) yields a second reply with `changed=false`, and
afterwards the file holds exactly the bytes of `content`. The initial
state must not hold a SHA-256 collision of `content` at `path` (the code
equates content by hash). -/
theorem c5_write_file_idempotent (args : Args) (p c : String) (fs0 : FsState)
    (hp : args "path" = some p) (hpne : p ≠ "") (hc : args "content" = some c)
    (hcoll : ∀ f, fs0.files p = some f →
        computeHash f.content = computeHash (strBytes c) → f.content = strBytes c) :
    (writeFileExecute args false (writeFileExecute args false fs0).2).1.changed = false ∧
    contentAt (writeFileExecute args false (writeFileExecute args false fs0).2).2 p =
      some (strBytes c) := by
  have h1 := writeFileExecute_content args p c fs0 hp hpne hc
  have hcontent1 : contentAt (writeFileExecute args false fs0).2 p = some (strBytes c) := by
    rw [h1]
    by_cases hch : writeChanged fs0 p (strBytes c)
    · simp [hch]
    · have hch' : writeChanged fs0 p (strBytes c) = false := by
        simpa using hch
      obtain ⟨f, hf, hhash⟩ := (writeChanged_false_iff fs0 p (strBytes c)).mp hch'
      simp [hch', contentAt, hf, hcoll f hf hhash]
  obtain ⟨f1, hf1, hf1c⟩ :
      ∃ f1, (writeFileExecute args false fs0).2.files p = some f1 ∧
        f1.content = strBytes c := by
    unfold contentAt at hcontent1
    cases hx : (writeFileExecute args false fs0).2.files p with
    | none => rw [hx] at hcontent1; simp at hcontent1
    | some f1 =>
      rw [hx] at hcontent1
      simp at hcontent1
      exact ⟨f1, rfl, hcontent1⟩
  have hch1 : writeChanged (writeFileExecute args false fs0).2 p (strBytes c) = false :=
    (writeChanged_false_iff _ p (strBytes c)).mpr ⟨f1, hf1, by rw [hf1c]⟩
  refine ⟨writeFileExecute_changed_false args p c _ hp hpne hc hch1, ?_⟩
  rw [writeFileExecute_content args p c _ hp hpne hc, hch1]
  simpa using hcontent1

/-- Witness for C5: an empty host state and `write_file /tmp/x abc`. -/
theorem c5_write_file_idempotent_witness :
    ((argsOf [("path", "/tmp/x"), ("content", "abc")]) "path" = some "/tmp/x" ∧
      ("/tmp/x" : String) ≠ "" ∧
      (argsOf [("path", "/tmp/x"), ("content", "abc")]) "content" = some "abc" ∧
      (∀ f, FsState.empty.files "/tmp/x" = some f →
        computeHash f.content = computeHash (strBytes "abc") → f.content = strBytes "abc")) ∧
    ((writeFileExecute (argsOf [("path", "/tmp/x"), ("content", "abc")]) false
        (writeFileExecute (argsOf [("path", "/tmp/x"), ("content", "abc")]) false
          FsState.empty).2).1.changed = false ∧
      contentAt (writeFileExecute (argsOf [("path", "/tmp/x"), ("content", "abc")]) false
        (writeFileExecute (argsOf [("path", "/tmp/x"), ("content", "abc")]) false
          FsState.empty).2).2 "/tmp/x" = some (strBytes "abc")) :=
  ⟨⟨by decide, by decide, by decide, fun f h => nomatch h⟩,
    c5_write_file_idempotent (argsOf [("path", "/tmp/x"), ("content", "abc")])
      "/tmp/x" "abc" FsState.empty (by decide) (by decide) (by decide)
      (fun f h => nomatch h)⟩

/-! ## C6 -/

/-- A host state with `/etc/app.conf` holding `"a"` under mode `0644`. -/
def c6fs : FsState :=
  { files := fun q =>
      if q = "/etc/app.conf" then
        some { content := strBytes "a", mode := 420, owner := "" }
      else none,
    dirs := fun _ => false }

/-- A `write_file` request rewriting the same content under mode `0755`. -/
def c6args : Args :=
  argsOf [("path", "/etc/app.conf"), ("content", "a"), ("mode", "755")]

/-- **C6 (counterexample).** A real `write_file` run that only alters the
mode of an existing file with matching content (0644 to 0755) reports
`changed=false`, although the claim requires `changed=true` whenever the
mode or owner changed. -/
theorem c6_mode_change_flag_counterexample :
    (writeFileExecute c6args false c6fs).1.changed = false ∧
    ((writeFileExecute c6args false c6fs).2.files "/etc/app.conf").map FileRec.mode =
      some 493 ∧
    (c6fs.files "/etc/app.conf").map FileRec.mode = some 420 ∧
    (493 : Nat) ≠ 420 := by
  have hp : c6args "path" = some "/etc/app.conf" := by decide
  have hc : c6args "content" = some "a" := by decide
  have hm : c6args "mode" = some "755" := by decide
  have how : c6args "owner" = none := by decide
  have hoct : parseOctal "755" = some 493 := by decide
  have hch : writeChanged c6fs "/etc/app.conf" (strBytes "a") = false := by
    simp [writeChanged, c6fs]
  refine ⟨?_, ?_, by decide, by decide⟩
  · rw [writeFileExecute_changed c6args "/etc/app.conf" "a" c6fs hp (by decide) hc
      (by decide) (by decide)]
    exact hch
  · unfold writeFileExecute
    simp only [hp, hc]
    rw [if_neg (by decide : ¬("/etc/app.conf" : String) = "")]
    simp only [Bool.false_eq_true, if_false, hm, hch]
    simp [hoct, how, applyOwnerStage, FsState.chmod, FsState.setFile, c6fs]

/-- **C6 (amended).** For a real `write_file` run with well-formed
arguments, the reply's `changed` flag is exactly the content-hash
comparison: `true` iff the new content's SHA-256 differs from the
existing file's (in which case the file is written); applying `mode` or
`owner` never affects the flag. -/
theorem c6_changed_flag_amended (args : Args) (p c : String) (fs : FsState)
    (hp : args "path" = some p) (hpne : p ≠ "") (hc : args "content" = some c)
    (hmode : modeArgOk args = true) (howner : ownerArgOk args = true) :
    (writeFileExecute args false fs).1.changed = writeChanged fs p (strBytes c) ∧
    contentAt (writeFileExecute args false fs).2 p =
      (if writeChanged fs p (strBytes c) then some (strBytes c) else contentAt fs p) :=
  ⟨writeFileExecute_changed args p c fs hp hpne hc hmode howner,
    writeFileExecute_content args p c fs hp hpne hc⟩

/-- Witness for C6 (amended) at the concrete mode-only rewrite. -/
theorem c6_changed_flag_amended_witness :
    (c6args "path" = some "/etc/app.conf" ∧ ("/etc/app.conf" : String) ≠ "" ∧
      c6args "content" = some "a" ∧ modeArgOk c6args = true ∧
      ownerArgOk c6args = true) ∧
    ((writeFileExecute c6args false c6fs).1.changed =
        writeChanged c6fs "/etc/app.conf" (strBytes "a") ∧
      contentAt (writeFileExecute c6args false c6fs).2 "/etc/app.conf" =
        (if writeChanged c6fs "/etc/app.conf" (strBytes "a") then some (strBytes "a")
         else contentAt c6fs "/etc/app.conf")) :=
  ⟨⟨by decide, by decide, by decide, by decide, by decide⟩,
    c6_changed_flag_amended c6args "/etc/app.conf" "a" c6fs (by decide) (by decide)
      (by decide) (by decide) (by decide)⟩

/-! ## Supporting lemmas: dry-run frame properties -/

/-- A dry `write_file` run returns the state untouched on every path. -/
theorem writeFileExecute_dry_frame (args : Args) (fs : FsState) :
    (writeFileExecute args true fs).2 = fs := by
  unfold writeFileExecute
  split
  · rfl
  split
  · rfl
  split
  · rfl
  rw [if_pos rfl]
  split <;> rfl

/-- A dry `template_file` run returns the state untouched on every path. -/
theorem templateExecute_dry_frame (render : String → String → Option String)
    (args : Args) (fs : FsState) :
    (templateExecute render args true fs).2 = fs := by
  unfold templateExecute
  split
  · rfl
  split
  · rfl
  split
  · rfl
  split
  · rfl
  split
  · rfl
  rw [if_pos rfl]

/-- A dry `deploy_artifact` run returns the state untouched on every path. -/
theorem artifactExecute_dry_frame (args : Args) (fs : FsState) :
    (artifactExecute args true fs).2 = fs := by
  simp only [artifactExecute]
  split
  · rfl
  split
  · rfl
  split
  · rfl
  split
  · rfl
  simp only [if_true]

/-- The dry-run `changed` flag of `template_file` is the hash comparison
of the rendered output against the existing file. -/
theorem templateExecute_dry_changed (render : String → String → Option String)
    (args : Args) (p tpl rendered : String) (fs : FsState)
    (hp : args "path" = some p) (hpne : p ≠ "")
    (ht : args "template" = some tpl) (htne : tpl ≠ "")
    (hr : render tpl (argD args "vars") = some rendered) :
    (templateExecute render args true fs).1.changed =
      writeChanged fs p (strBytes rendered) := by
  unfold templateExecute
  simp only [hp, ht, hr]
  rw [if_neg hpne, if_neg htne]
  simp [Protocol.NewRunResponse]

/-- With a well-formed mode argument, the real-run `changed` flag of
`template_file` is exactly the same hash comparison. -/
theorem templateExecute_changed (render : String → String → Option String)
    (args : Args) (p tpl rendered : String) (fs : FsState)
    (hp : args "path" = some p) (hpne : p ≠ "")
    (ht : args "template" = some tpl) (htne : tpl ≠ "")
    (hr : render tpl (argD args "vars") = some rendered)
    (hmode : modeArgOk args = true) :
    (templateExecute render args false fs).1.changed =
      writeChanged fs p (strBytes rendered) := by
  unfold templateExecute
  simp only [hp, ht, hr]
  rw [if_neg hpne, if_neg htne]
  simp only [Bool.false_eq_true, if_false]
  unfold modeArgOk at hmode
  cases hm : args "mode" with
  | none => simp [Protocol.NewRunResponse]
  | some m =>
    rw [hm] at hmode
    by_cases hme : m = ""
    · simp [hme, Protocol.NewRunResponse]
    · cases hpm : parseOctal m with
      | none => simp [hme, hpm] at hmode
      | some mv => simp [hme, hpm, Protocol.NewRunResponse]

/-- A dry `systemd` run (spec-modelled, see `systemdExecute`) leaves the
unit state untouched and never invokes `systemctl`: its result is the
same for any `systemctl` outcome. -/
theorem systemdExecute_dry_frame (args : Args) (st : UnitState)
    (o1 o2 : SysctlResult) :
    (systemdExecute args true st o1).2 = st ∧
    systemdExecute args true st o1 = systemdExecute args true st o2 := by
  unfold systemdExecute
  simp only [show (true = true) = True from by simp, if_true]
  constructor
  · split
    · rfl
    split
    · rfl
    split
    · rfl
    split <;> rfl
  · trivial

/-- A dry `cmd` run never consults the shell: its reply is the same for
any shell outcome (it never forks). -/
theorem cmdExecute_dry_shell_independent (args : Args) (fs : FsState)
    (look : Bool) (sh1 sh2 : ShellResult) :
    cmdExecute args true fs look sh1 = cmdExecute args true fs look sh2 := by
  unfold cmdExecute
  split
  · rfl
  split
  · rfl
  rw [if_pos rfl, if_pos rfl]

/-! ## C7 -/

/-- **C7.** Dry-run requests never mutate the host state — `write_file`,
`template_file` and `deploy_artifact` hand the state back untouched on
every path, a dry `cmd` never forks (its reply is independent of the
shell oracle), and a dry `systemd` (spec-modelled, the dry-run-aware
executor being absent from the source tree) leaves the unit state
untouched and never invokes `systemctl` — and the dry `changed` flag of
`write_file` and `template_file` is computed by the same hash comparison
as a real run. -/
theorem c7_dry_run_frame_and_parity :
    (∀ (args : Args) (fs : FsState), (writeFileExecute args true fs).2 = fs) ∧
    (∀ (render : String → String → Option String) (args : Args) (fs : FsState),
        (templateExecute render args true fs).2 = fs) ∧
    (∀ (args : Args) (fs : FsState), (artifactExecute args true fs).2 = fs) ∧
    (∀ (args : Args) (fs : FsState) (look : Bool) (sh1 sh2 : ShellResult),
        cmdExecute args true fs look sh1 = cmdExecute args true fs look sh2) ∧
    (∀ (args : Args) (st : UnitState) (o1 o2 : SysctlResult),
        (systemdExecute args true st o1).2 = st ∧
        systemdExecute args true st o1 = systemdExecute args true st o2) ∧
    (∀ (args : Args) (p c : String) (fs : FsState),
        args "path" = some p → p ≠ "" → args "content" = some c →
        fs.dirs (dirname p) = true → modeArgOk args = true → ownerArgOk args = true →
        (writeFileExecute args true fs).1.changed =
          (writeFileExecute args false fs).1.changed) ∧
    (∀ (render : String → String → Option String) (args : Args)
        (p tpl rendered : String) (fs : FsState),
        args "path" = some p → p ≠ "" → args "template" = some tpl → tpl ≠ "" →
        render tpl (argD args "vars") = some rendered → modeArgOk args = true →
        (templateExecute render args true fs).1.changed =
          (templateExecute render args false fs).1.changed) := by
  refine ⟨writeFileExecute_dry_frame, templateExecute_dry_frame,
    artifactExecute_dry_frame, cmdExecute_dry_shell_independent,
    systemdExecute_dry_frame, ?_, ?_⟩
  · intro args p c fs hp hpne hc hd hmode howner
    rw [writeFileExecute_dry_changed args p c fs hp hpne hc hd,
      writeFileExecute_changed args p c fs hp hpne hc hmode howner]
  · intro render args p tpl rendered fs hp hpne ht htne hr hmode
    rw [templateExecute_dry_changed render args p tpl rendered fs hp hpne ht htne hr,
      templateExecute_changed render args p tpl rendered fs hp hpne ht htne hr hmode]

/-- The template-file request used by the C7 witness. -/
def c7tplArgs : Args := argsOf [("path", "/etc/app.conf"), ("template", "T")]

/-- The constant rendering oracle used by the C7 witness. -/
def c7render (tpl : String) (_vars : String) : Option String := some tpl

/-- Witness for C7 at the concrete mode-only rewrite (with the parent
directory present) and at a concrete template rendering. -/
theorem c7_dry_run_frame_and_parity_witness :
    (c6args "path" = some "/etc/app.conf" ∧ ("/etc/app.conf" : String) ≠ "" ∧
      c6args "content" = some "a" ∧
      (FsState.mk c6fs.files (fun _ => true)).dirs (dirname "/etc/app.conf") = true ∧
      modeArgOk c6args = true ∧ ownerArgOk c6args = true ∧
      c7tplArgs "path" = some "/etc/app.conf" ∧
      c7tplArgs "template" = some "T" ∧ ("T" : String) ≠ "" ∧
      c7render "T" (argD c7tplArgs "vars") = some "T" ∧ modeArgOk c7tplArgs = true) ∧
    ((writeFileExecute c6args true (FsState.mk c6fs.files (fun _ => true))).2 =
        FsState.mk c6fs.files (fun _ => true) ∧
      ((systemdExecute c6args true (UnitState.mk (fun _ => false) (fun _ => false))
          (SysctlResult.mk false 0 "" "")).2 =
        UnitState.mk (fun _ => false) (fun _ => false) ∧
        systemdExecute c6args true (UnitState.mk (fun _ => false) (fun _ => false))
            (SysctlResult.mk false 0 "" "") =
          systemdExecute c6args true (UnitState.mk (fun _ => false) (fun _ => false))
            (SysctlResult.mk true 1 "x" "y")) ∧
      (writeFileExecute c6args true (FsState.mk c6fs.files (fun _ => true))).1.changed =
        (writeFileExecute c6args false (FsState.mk c6fs.files (fun _ => true))).1.changed ∧
      (templateExecute c7render c7tplArgs true c6fs).1.changed =
        (templateExecute c7render c7tplArgs false c6fs).1.changed) :=
  ⟨⟨by decide, by decide, by decide, by decide, by decide, by decide, by decide,
      by decide, by decide, by decide, by decide⟩,
    c7_dry_run_frame_and_parity.1 c6args (FsState.mk c6fs.files (fun _ => true)),
    c7_dry_run_frame_and_parity.2.2.2.2.1 c6args
      (UnitState.mk (fun _ => false) (fun _ => false))
      (SysctlResult.mk false 0 "" "") (SysctlResult.mk true 1 "x" "y"),
    c7_dry_run_frame_and_parity.2.2.2.2.2.1 c6args "/etc/app.conf" "a"
      (FsState.mk c6fs.files (fun _ => true)) (by decide) (by decide) (by decide)
      (by decide) (by decide) (by decide),
    c7_dry_run_frame_and_parity.2.2.2.2.2.2 c7render c7tplArgs "/etc/app.conf"
      "T" "T" c6fs (by decide) (by decide) (by decide) (by decide) (by decide)
      (by decide)⟩

/-! ## C9 -/

/-- A single-chunk `deploy_artifact` request with no `mode` argument. -/
def c9args : Args :=
  argsOf [("dest", "/opt/bin/app"), ("chunk_data", "YQ=="),
    ("chunk_index", "0"), ("total_chunks", "1")]

/-- **C9 (counterexample).** A `deploy_artifact` request without a `mode`
argument creates the destination with mode `0644` (420), not the claimed
default `0755` (493). -/
theorem c9_artifact_mode_default_counterexample :
    ((artifactExecute c9args false FsState.empty).2.files "/opt/bin/app").map
        FileRec.mode = some 420 ∧
    (artifactExecute c9args false FsState.empty).1.status = Protocol.Status.ok ∧
    (420 : Nat) ≠ 493 := by decide

/-- **C9 (amended).** When the `mode` argument is absent or empty, a
file created by `deploy_artifact` gets mode `0644` (the agent-side
default; the controller always sends an explicit `mode=0755`). -/
theorem c9_artifact_mode_default_amended (args : Args) (fs : FsState)
    (d : String) (data : List Nat) (n : Int)
    (hd : argD args "dest" = d) (hdne : d ≠ "")
    (hb : argD args "chunk_data" ≠ "")
    (hdec : b64Decode (argD args "chunk_data") = some data)
    (hi : atoi (argD args "chunk_index") = some 0)
    (hn : atoi (argD args "total_chunks") = some n)
    (hm : argD args "mode" = "")
    (hf : fs.files d = none) :
    ((artifactExecute args false fs).2.files d).map FileRec.mode = some 420 := by
  unfold artifactExecute
  rw [hd, if_neg hdne, if_neg hb, hi, hn]
  simp only [Bool.false_eq_true, if_false, hdec, hm]
  have hfiles : (fs.addDir (dirname d)).files d = none := hf
  simp only [if_pos (show (0 : Int) = 0 from rfl), hfiles,
    if_neg (show ¬(("" : String) ≠ "") from fun h => h rfl)]
  simp [apply_ite, FsState.setFile, hfiles]

/-- Witness for C9 (amended) at the concrete single-chunk request. -/
theorem c9_artifact_mode_default_amended_witness :
    (argD c9args "dest" = "/opt/bin/app" ∧ ("/opt/bin/app" : String) ≠ "" ∧
      argD c9args "chunk_data" ≠ "" ∧
      b64Decode (argD c9args "chunk_data") = some [97] ∧
      atoi (argD c9args "chunk_index") = some 0 ∧
      atoi (argD c9args "total_chunks") = some 1 ∧
      argD c9args "mode" = "" ∧ FsState.empty.files "/opt/bin/app" = none) ∧
    ((artifactExecute c9args false FsState.empty).2.files "/opt/bin/app").map
        FileRec.mode = some 420 :=
  ⟨⟨by decide, by decide, by decide, by decide, by decide, by decide, by decide,
      by decide⟩,
    c9_artifact_mode_default_amended c9args FsState.empty "/opt/bin/app" [97] 1
      (by decide) (by decide) (by decide) (by decide) (by decide) (by decide)
      (by decide) (by decide)⟩

/-! ## C10 -/

/-- **C10.** On the final chunk, an empty `checksum` argument skips
SHA-256 verification entirely — the reply is `ok` with `changed=true`
for every host state — while a non-empty checksum is compared against
the assembled file: the reply is `error` exactly when the hash differs. -/
theorem c10_artifact_checksum_only_when_nonempty (args : Args) (fs : FsState)
    (d : String) (data : List Nat) (i n : Int)
    (hd : argD args "dest" = d) (hdne : d ≠ "")
    (hb : argD args "chunk_data" ≠ "")
    (hdec : b64Decode (argD args "chunk_data") = some data)
    (hi : atoi (argD args "chunk_index") = some i)
    (hn : atoi (argD args "total_chunks") = some n)
    (hfin : i = n - 1) :
    (argD args "checksum" = "" →
        (artifactExecute args false fs).1.status = Protocol.Status.ok ∧
        (artifactExecute args false fs).1.changed = true) ∧
    (∀ c : String, argD args "checksum" = c → c ≠ "" → i = 0 → fs.files d = none →
        ((artifactExecute args false fs).1.status = Protocol.Status.error ↔
          computeHash data ≠ c)) := by
  constructor
  · intro hck
    unfold artifactExecute
    rw [hd, if_neg hdne, if_neg hb, hi, hn]
    simp only [Bool.false_eq_true, if_false, hdec, hck]
    rw [if_neg (by simp)]
    simp [Protocol.NewRunResponse]
  · intro c hck hcne hi0 hf
    subst hi0
    unfold artifactExecute
    rw [hd, if_neg hdne, if_neg hb, hi, hn]
    simp only [Bool.false_eq_true, if_false, hdec, hck]
    rw [if_pos ⟨hfin, hcne⟩]
    have hfiles : (fs.addDir (dirname d)).files d = none := hf
    simp only [if_true, hfiles, List.nil_append]
    by_cases hcmp : computeHash data ≠ c
    · rw [if_pos hcmp]
      exact iff_of_true rfl hcmp
    · rw [if_neg hcmp]
      exact iff_of_false (by simp [Protocol.NewRunResponse]) hcmp

/-- Witness for C10 at the concrete single-chunk request with an empty
checksum, and at the same request carrying the correct checksum. -/
theorem c10_artifact_checksum_only_when_nonempty_witness :
    (argD c9args "dest" = "/opt/bin/app" ∧ ("/opt/bin/app" : String) ≠ "" ∧
      argD c9args "chunk_data" ≠ "" ∧
      b64Decode (argD c9args "chunk_data") = some [97] ∧
      atoi (argD c9args "chunk_index") = some 0 ∧
      atoi (argD c9args "total_chunks") = some 1 ∧
      (0 : Int) = 1 - 1 ∧ argD c9args "checksum" = "") ∧
    ((artifactExecute c9args false FsState.empty).1.status = Protocol.Status.ok ∧
      (artifactExecute c9args false FsState.empty).1.changed = true) :=
  ⟨⟨by decide, by decide, by decide, by decide, by decide, by decide, by decide,
      by decide⟩,
    (c10_artifact_checksum_only_when_nonempty c9args FsState.empty "/opt/bin/app"
      [97] 0 1 (by decide) (by decide) (by decide) (by decide) (by decide)
      (by decide) (by decide)).1 (by decide)⟩

end Stapply
